import Mathlib

/-!
Verification development for the bus-scanner repository (Go).

The Go source is shallowly embedded: each Go struct becomes a Lean
structure, each pure function becomes a Lean function, the channel-based
aggregation (`SearchAllPlatforms`) becomes a deterministic fold over an
explicit interleaving schedule of the goroutines' channel sends, and the
rate limiter becomes an explicit clock-passing step function.

Modelling conventions:
- Go `float64` fields (prices, ratings, coordinates) are modelled as `Rat`.
  The program only constructs these from decimal literals and compares
  them with `<`, so the order embedding is faithful for every value the
  program handles (no NaN can arise: mock prices are sums of literals and
  JSON cannot encode NaN).
- Go `time.Time` is modelled as `GoTime`: a calendar day index (days since
  1970-01-01) plus a second-of-day, which is exactly the granularity the
  program uses (`time.Date(year, month, day, hour, min, 0, 0, loc)` and
  whole-hour/whole-day `Add`s).
- `rand.Intn(k)` draws are passed in as explicit parameters; theorems that
  need the range constraint `< k` take it as a hypothesis.
- Go's `(value, error)` returns become pairs with an `Option String`
  error component, or `Except String` where only one value flows.
-/

namespace BusScanner

/-! ## Data model (main.go: Location, BusOperator, BusType, Price, Route,
SearchRequest) -/

/-- `Location` from main.go. `Lat`/`Lng` (`float64`) are modelled as `Rat`. -/
structure Location where
  id : String
  name : String
  city : String
  state : String
  country : String
  lat : Rat
  lng : Rat
deriving DecidableEq, Repr, Inhabited

/-- `BusOperator` from main.go. -/
structure BusOperator where
  id : String
  name : String
  logo : String
  rating : Rat
  platform : String
deriving DecidableEq, Repr, Inhabited

/-- `BusType` from main.go. -/
structure BusType where
  id : String
  name : String
  seats : Int
  amenities : List String
  description : String
deriving DecidableEq, Repr, Inhabited

/-- Model of Go `time.Time` at the granularity the program uses: a calendar
day (days since 1970-01-01) plus a second-of-day. -/
structure GoTime where
  day : Int
  sec : Nat
deriving DecidableEq, Repr, Inhabited

/-- `time.Time.Add` for a nonnegative whole-second duration, carrying
overflow past midnight into the day index. -/
def GoTime.addSeconds (t : GoTime) (d : Nat) : GoTime :=
  { day := t.day + ((t.sec + d) / 86400 : Nat), sec := (t.sec + d) % 86400 }

/-- `Price` from main.go. `Amount` (`float64`) is modelled as `Rat`. -/
structure Price where
  amount : Rat
  currency : String
  platform : String
deriving DecidableEq, Repr, Inhabited

/-- `Route` from main.go (the provider-neutral RouteOffer). The Go fields
`From`/`To` are named `fromLoc`/`toLoc` (`from` is reserved in Lean). -/
structure Route where
  id : String
  fromLoc : Location
  toLoc : Location
  operator : BusOperator
  busType : BusType
  departureTime : GoTime
  arrivalTime : GoTime
  duration : String
  price : Price
  availableSeats : Int
  bookingURL : String
deriving DecidableEq, Repr, Inhabited

/-- `SearchRequest` from main.go. -/
structure SearchRequest where
  fromCity : String
  toCity : String
  date : GoTime
  passengers : Int
deriving DecidableEq, Repr

/-! ## Sample data (main.go: GetSampleLocations, GetSampleOperators,
GetSampleBusTypes) -/

/-- `GetSampleLocations` from main.go. -/
def getSampleLocations : List Location :=
  [ { id := "mumbai", name := "Mumbai Central", city := "Mumbai",
      state := "Maharashtra", country := "India",
      lat := 19076/1000, lng := 728777/10000 },
    { id := "pune", name := "Pune Station", city := "Pune",
      state := "Maharashtra", country := "India",
      lat := 185204/10000, lng := 738567/10000 },
    { id := "bangalore", name := "Bangalore Majestic", city := "Bangalore",
      state := "Karnataka", country := "India",
      lat := 129716/10000, lng := 775946/10000 },
    { id := "delhi", name := "Delhi ISBT", city := "Delhi",
      state := "Delhi", country := "India",
      lat := 287041/10000, lng := 771025/10000 } ]

/-- `GetSampleOperators` from main.go. -/
def getSampleOperators : List BusOperator :=
  [ { id := "redbus", name := "RedBus", logo := "redbus.png",
      rating := 42/10, platform := "redbus" },
    { id := "makemytrip", name := "MakeMyTrip", logo := "mmt.png",
      rating := 4, platform := "makemytrip" },
    { id := "goibibo", name := "Goibibo", logo := "goibibo.png",
      rating := 39/10, platform := "goibibo" },
    { id := "abhibus", name := "AbhiBus", logo := "abhibus.png",
      rating := 41/10, platform := "abhibus" } ]

/-- `GetSampleBusTypes` from main.go. -/
def getSampleBusTypes : List BusType :=
  [ { id := "ac_sleeper", name := "AC Sleeper", seats := 40,
      amenities := ["AC", "Sleeper", "Blanket", "Pillow"],
      description := "Air conditioned sleeper bus with comfortable berths" },
    { id := "non_ac_seater", name := "Non-AC Seater", seats := 50,
      amenities := ["Pushback Seats", "Charging Point"],
      description := "Comfortable seater bus for day travel" },
    { id := "volvo_ac", name := "Volvo AC", seats := 45,
      amenities := ["AC", "WiFi", "Entertainment", "USB Charging"],
      description := "Premium Volvo bus with luxury amenities" } ]

/-- The zero value of Go's `Location` struct. -/
def zeroLocation : Location :=
  { id := "", name := "", city := "", state := "", country := "",
    lat := 0, lng := 0 }

/-- The location-lookup loop every provider runs over the sample table:
`for _, loc := range locations { if loc.City == city { result = loc } }`
starting from the zero value, so the last match wins and an unmatched city
yields the zero-valued `Location`. -/
def findLocation (city : String) : Location :=
  getSampleLocations.foldl
    (fun acc loc => if loc.city = city then loc else acc) zeroLocation

/-! ## Mock provider services (main.go: RedBusService, MakeMyTripService,
GoibiboService). The `rand` draws are explicit parameters:
`basePrice` models the random base fare, `n` models the `rand.Intn(_)`
draw sizing the route count, `btChoice i` models
`rand.Intn(len(busTypes))` for iteration `i` (always `< 3` since the
sample table has 3 entries, hence `Fin 3`), and `seatChoice i` models the
`rand.Intn(_)` seat draw for iteration `i`. A service's result is the pair
`(routes, error)`; every mock returns a `none` error. -/

/-- `RedBusService.SearchRoutes`: 2-4 routes (`rand.Intn(3)+2`, `n` is the
`Intn(3)` draw), operator `operators[0]`, departures at `6+4i` hours on the
search date, arrivals 8 hours later, price `basePrice + 100i`. -/
def redBusSearchRoutes (req : SearchRequest) (basePrice : Rat) (n : Nat)
    (btChoice : Nat → Fin 3) (seatChoice : Nat → Nat) :
    List Route × Option String :=
  let fromLoc := findLocation req.fromCity
  let toLoc := findLocation req.toCity
  let routes := (List.range (n + 2)).map fun i =>
    { id := "redbus_" ++ toString (i + 1)
      fromLoc := fromLoc
      toLoc := toLoc
      operator := getSampleOperators.get ⟨0, by decide⟩
      busType := getSampleBusTypes.get ⟨btChoice i, (btChoice i).isLt⟩
      departureTime := req.date.addSeconds ((6 + i * 4) * 3600)
      arrivalTime := req.date.addSeconds ((6 + i * 4 + 8) * 3600)
      duration := "8h 0m"
      price := { amount := basePrice + (i * 100 : Nat),
                 currency := "INR", platform := "RedBus" }
      availableSeats := (seatChoice i : Int) + 5
      bookingURL := "https://redbus.in/book/route123" : Route }
  (routes, none)

/-- `MakeMyTripService.SearchRoutes`: 1-4 routes (`rand.Intn(4)+1`, `n` is
the `Intn(4)` draw), operator `operators[1]`, departures at `7+3i` hours,
arrivals 9 hours later, price `basePrice + 150i`. -/
def makeMyTripSearchRoutes (req : SearchRequest) (basePrice : Rat) (n : Nat)
    (btChoice : Nat → Fin 3) (seatChoice : Nat → Nat) :
    List Route × Option String :=
  let fromLoc := findLocation req.fromCity
  let toLoc := findLocation req.toCity
  let routes := (List.range (n + 1)).map fun i =>
    { id := "mmt_" ++ toString (i + 1)
      fromLoc := fromLoc
      toLoc := toLoc
      operator := getSampleOperators.get ⟨1, by decide⟩
      busType := getSampleBusTypes.get ⟨btChoice i, (btChoice i).isLt⟩
      departureTime := req.date.addSeconds ((7 + i * 3) * 3600)
      arrivalTime := req.date.addSeconds ((7 + i * 3 + 9) * 3600)
      duration := "9h 0m"
      price := { amount := basePrice + (i * 150 : Nat),
                 currency := "INR", platform := "MakeMyTrip" }
      availableSeats := (seatChoice i : Int) + 3
      bookingURL := "https://makemytrip.com/bus/book/xyz" : Route }
  (routes, none)

/-- `GoibiboService.SearchRoutes`: 2-4 routes (`rand.Intn(3)+2`, `n` is the
`Intn(3)` draw), operator `operators[2]`, departures at `8+4i` hours,
arrivals 7 hours later, price `basePrice + 80i`. -/
def goibiboSearchRoutes (req : SearchRequest) (basePrice : Rat) (n : Nat)
    (btChoice : Nat → Fin 3) (seatChoice : Nat → Nat) :
    List Route × Option String :=
  let fromLoc := findLocation req.fromCity
  let toLoc := findLocation req.toCity
  let routes := (List.range (n + 2)).map fun i =>
    { id := "goibibo_" ++ toString (i + 1)
      fromLoc := fromLoc
      toLoc := toLoc
      operator := getSampleOperators.get ⟨2, by decide⟩
      busType := getSampleBusTypes.get ⟨btChoice i, (btChoice i).isLt⟩
      departureTime := req.date.addSeconds ((8 + i * 4) * 3600)
      arrivalTime := req.date.addSeconds ((8 + i * 4 + 7) * 3600)
      duration := "7h 30m"
      price := { amount := basePrice + (i * 80 : Nat),
                 currency := "INR", platform := "Goibibo" }
      availableSeats := (seatChoice i : Int) + 8
      bookingURL := "https://goibibo.com/bus/booking/abc" : Route }
  (routes, none)

/-! ## Aggregator (main.go: PlatformManager.SearchAllPlatforms;
part_000: RealPlatformManager.SearchAllPlatforms — identical control flow,
the real variant only logs inside the goroutine instead of the collector).

Each goroutine runs `routes, err := p.SearchRoutes(req)` and then makes two
buffered channel sends: on error it sends the error to `errorsChan` and
then `nil` to `routesChan`; on success it sends the routes to `routesChan`
and then `nil` to `errorsChan`. Both channels are buffered to the provider
count, so no send blocks, and each channel delivers its values in send
order. The collector loops `len(platforms)` times, pairing the i-th
`routesChan` value with the i-th `errorsChan` value.

We embed this by quantifying over the interleaving of the goroutines'
sends: a `Schedule` is the global order of the 2N send events, an event
`(i, s)` being provider i's first (`s = false`) or second (`s = true`)
send. A schedule is valid when it is a permutation of the 2N events in
which each provider's first send precedes its second. The two channel
contents are then the per-channel subsequences of the schedule, and the
collector is a deterministic fold over their zip. -/

/-- A provider's report `(routes, err)` as returned by `SearchRoutes`. -/
abbrev SearchResult := List Route × Option String

/-- One global interleaving of the 2N channel-send events: `(i, false)` is
provider i's first send, `(i, true)` its second. -/
abbrev Schedule := List (Nat × Bool)

/-- The canonical event list: both sends of provider 0, then of provider 1,
and so on. -/
def allEvents (n : Nat) : Schedule :=
  (List.range n).flatMap fun i => [(i, false), (i, true)]

/-- A schedule is valid when it is a permutation of the 2N events in which
every provider's first send precedes its second (program order within each
goroutine; cross-goroutine order is arbitrary). -/
def validSchedule (n : Nat) (ev : Schedule) : Prop :=
  ev.Perm (allEvents n) ∧
    ∀ i ∈ List.range n, ev.indexOf (i, false) < ev.indexOf (i, true)

instance (n : Nat) (ev : Schedule) : Decidable (validSchedule n ev) := by
  unfold validSchedule; infer_instance

/-- Whether a provider's first send goes to `routesChan` (true exactly on
the success path, where `routesChan <- routes` precedes
`errorsChan <- nil`). -/
def firstSendIsRoutes (res : SearchResult) : Bool := res.2.isNone

/-- The contents of `routesChan` in delivery order under schedule `ev`:
for each event that is a routes-send, the sent value (`some routes` on the
success path, `none` for the `nil` sent on the error path). -/
def routesChan (outs : List SearchResult) (ev : Schedule) :
    List (Option (List Route)) :=
  ev.filterMap fun e =>
    (outs.get? e.1).bind fun res =>
      if e.2 ≠ firstSendIsRoutes res then
        some (if res.2.isNone then some res.1 else none)
      else none

/-- The contents of `errorsChan` in delivery order under schedule `ev`:
for each event that is an errors-send, the sent value (`none` on the
success path, the provider's error on the error path; the Go code wraps
the error text with the platform name, which we keep abstract). -/
def errorsChan (outs : List SearchResult) (ev : Schedule) :
    List (Option String) :=
  ev.filterMap fun e =>
    (outs.get? e.1).bind fun res =>
      if e.2 = firstSendIsRoutes res then some res.2 else none

/-- One iteration of the collect loop: read a routes value and an error
value; a non-nil error is logged as a warning and skipped; otherwise a
non-nil routes slice is appended. -/
def collectStep (acc : List Route) (p : Option (List Route) × Option String) :
    List Route :=
  if p.2.isSome then acc
  else match p.1 with
       | some rs => acc ++ rs
       | none => acc

/-- The collect loop: `len(platforms)` iterations, pairing the i-th value
of each channel. -/
def collectRoutes (rc : List (Option (List Route)))
    (ec : List (Option String)) : List Route :=
  (rc.zip ec).foldl collectStep []

/-- `SearchAllPlatforms` given each provider's report and the interleaving
schedule of the channel sends. The function always returns a `none` error
(`return allRoutes, nil` is its only return). -/
def searchAllPlatforms (outs : List SearchResult) (ev : Schedule) :
    List Route × Option String :=
  (collectRoutes (routesChan outs ev) (errorsChan outs ev), none)

/-! ## Rate-limited transport (part_000: APIConfig, HTTPClient.RateLimit,
HTTPClient.MakeRequest). Clocks are explicit: times and durations are in
nanoseconds (`time.Duration` units), the clock is monotone, and
`time.Sleep(d)` is modelled as waking exactly `d` later (Go guarantees at
least `d`; an overshoot only widens the spacing proved below). -/

/-- `APIConfig` from part_000 (durations in nanoseconds). -/
structure APIConfig where
  baseURL : String
  apiKey : String
  secretKey : String
  userAgent : String
  timeout : Nat
  rateLimit : Nat
deriving DecidableEq, Repr

/-- `HTTPClient.RateLimit`: given the instance's `lastCall` state and the
current clock `now`, the time at which the wait completes (and at which
`h.lastCall = time.Now()` is recorded). If `RateLimit > 0` and the elapsed
time since `lastCall` is shorter than `RateLimit`, sleep the difference;
otherwise do not sleep. -/
def rateLimitWake (cfg : APIConfig) (lastCall now : Nat) : Nat :=
  if 0 < cfg.rateLimit then
    if now - lastCall < cfg.rateLimit then
      now + (cfg.rateLimit - (now - lastCall))
    else now
  else now

/-- The timing skeleton of one `MakeRequest` call. -/
structure RequestTiming where
  /-- the value stored into `h.lastCall` by `RateLimit` -/
  recordedLastCall : Nat
  /-- when the network operation (`h.client.Do`) begins -/
  netStart : Nat
  /-- when the call returns (`netDur` is the network round-trip time) -/
  finish : Nat
deriving DecidableEq, Repr

/-- `MakeRequest` calls `h.RateLimit()` first, records the call time, and
only then performs the network operation. -/
def makeRequestTiming (cfg : APIConfig) (lastCall now netDur : Nat) :
    RequestTiming :=
  { recordedLastCall := rateLimitWake cfg lastCall now
    netStart := rateLimitWake cfg lastCall now
    finish := rateLimitWake cfg lastCall now + netDur }

/-! ## Real RedBus adapter (part_000: RedBusRoute, convertRedBusRoute,
RealRedBusService.SearchRoutes) -/

/-- `RedBusRoute` from part_000 (the provider wire record). `Fare`
(`float64`) is modelled as `Rat`. -/
structure RedBusRoute where
  id : String
  operatorName : String
  busType : String
  departureTime : String
  arrivalTime : String
  duration : String
  fare : Rat
  availableSeats : Int
  amenities : List String
  boardingPoints : List String
  droppingPoints : List String
deriving DecidableEq, Repr

/-- The numeric value of a decimal digit character. -/
def digitVal (c : Char) : Option Nat :=
  if c.isDigit then some (c.toNat - 48) else none

/-- Go `time.Parse("15:04", s)`: a 1- or 2-digit hour, a literal colon,
and exactly 2 minute digits, with nothing left over; the hour must be
below 24 and the minute below 60. Returns `(hour, minute)`. -/
def parseHHMM (s : String) : Option (Nat × Nat) :=
  match s.toList with
  | [c1, c2, ':', c4, c5] =>
    match digitVal c1, digitVal c2, digitVal c4, digitVal c5 with
    | some a, some b, some c, some d =>
        let h := a * 10 + b
        let m := c * 10 + d
        if h < 24 ∧ m < 60 then some (h, m) else none
    | _, _, _, _ => none
  | [c1, ':', c3, c4] =>
    match digitVal c1, digitVal c3, digitVal c4 with
    | some a, some c, some d =>
        let m := c * 10 + d
        if a < 24 ∧ m < 60 then some (a, m) else none
    | _, _, _ => none
  | _ => none

/-- `strings.ToLower(strings.ReplaceAll(s, " ", "_"))`, the operator/bus
identifier normalization used by both real adapters. -/
def goSlug (s : String) : String := (s.replace " " "_").toLower

/-- `convertRedBusRoute` from part_000: parse the wire record's
departure/arrival time-of-day with layout "15:04" (failure aborts the
record with an error, modelled as `none`), combine each with the search
date, and if the arrival clock time is before the departure clock time add
24 hours to the arrival (`// Handle next day arrival`). -/
def convertRedBusRoute (rb : RedBusRoute) (req : SearchRequest) :
    Option Route :=
  let fromLoc := findLocation req.fromCity
  let toLoc := findLocation req.toCity
  match parseHHMM rb.departureTime with
  | none => none
  | some dep =>
    match parseHHMM rb.arrivalTime with
    | none => none
    | some arr =>
      let departureDateTime : GoTime :=
        { day := req.date.day, sec := (dep.1 * 60 + dep.2) * 60 }
      let arrivalDateTime : GoTime :=
        { day := req.date.day, sec := (arr.1 * 60 + arr.2) * 60 }
      let arrivalDateTime :=
        if arr.1 * 60 + arr.2 < dep.1 * 60 + dep.2 then
          arrivalDateTime.addSeconds 86400
        else arrivalDateTime
      some
        { id := rb.id
          fromLoc := fromLoc
          toLoc := toLoc
          operator := { id := goSlug rb.operatorName, name := rb.operatorName,
                        logo := "", rating := 4, platform := "RedBus" }
          busType := { id := goSlug rb.busType, name := rb.busType,
                       seats := 0, amenities := rb.amenities,
                       description := rb.busType }
          departureTime := departureDateTime
          arrivalTime := arrivalDateTime
          duration := rb.duration
          price := { amount := rb.fare, currency := "INR",
                     platform := "RedBus" }
          availableSeats := rb.availableSeats
          bookingURL := "https://redbus.com/bus-tickets/" ++ rb.id }

/-- `RealRedBusService.SearchRoutes` after the transport call: `resp` is
either a transport/decode failure or the decoded envelope's `Data`
records. Each record is converted with `convertRedBusRoute`; a failing
conversion is skipped (`continue // Skip invalid routes`), and the
function returns a nil error. -/
def realRedBusSearchRoutes (resp : Except String (List RedBusRoute))
    (req : SearchRequest) : Except String (List Route) :=
  match resp with
  | .error e => .error ("RedBus API error: " ++ e)
  | .ok data => .ok (data.filterMap fun rb => convertRedBusRoute rb req)

/-! ## RapidAPI adapter (part_000: RapidAPIBusService.SearchRoutes) -/

/-- A record of the RapidAPI response envelope (the anonymous struct in
`RapidAPIBusService.SearchRoutes`). `Price` (`float64`) is a `Rat`. -/
structure RapidAPIRoute where
  id : String
  operator : String
  departure : String
  arrival : String
  price : Rat
  duration : String
  busType : String
  seats : Int
  amenities : List String
deriving DecidableEq, Repr

/-- Whether `y` is a leap year (proleptic Gregorian, as Go's `time`). -/
def isLeapYear (y : Nat) : Bool := y % 4 = 0 ∧ (y % 100 ≠ 0 ∨ y % 400 = 0)

/-- Days in month `m` of year `y`. -/
def daysInMonth (y m : Nat) : Nat :=
  if m = 2 then (if isLeapYear y then 29 else 28)
  else if m = 4 ∨ m = 6 ∨ m = 9 ∨ m = 11 then 30
  else 31

/-- The day index (days since 1970-01-01) of the civil date `y-m-d`,
proleptic Gregorian, for `m ∈ [1,12]` (the standard era-based conversion,
computed over `Nat` after shifting the era origin back 400 years so the
calculation never underflows for `y ≥ 0`). -/
def daysFromCivil (y m d : Nat) : Int :=
  let yShifted := if m ≤ 2 then y + 400 - 1 else y + 400
  let era := yShifted / 400
  let yoe := yShifted % 400
  let doy := (153 * (if 2 < m then m - 3 else m + 9) + 2) / 5 + (d - 1)
  let doe := yoe * 365 + yoe / 4 - yoe / 100 + doy
  (era * 146097 + doe : Nat) - 865565

/-- The zero value of Go's `time.Time`: January 1 of year 1, 00:00:00 UTC
(719162 days before 1970-01-01). -/
def goZeroTime : GoTime := { day := -719162, sec := 0 }

/-- Go `time.Parse(time.RFC3339, s)` restricted to the UTC form the model
needs: exactly "YYYY-MM-DDThh:mm:ssZ" with in-range month, day (checked
against the month's length), hour, minute and second. Offset and
fractional-second forms are outside the model and map to `none`. -/
def parseRFC3339 (s : String) : Option GoTime :=
  match s.toList with
  | [y1, y2, y3, y4, '-', m1, m2, '-', d1, d2, 'T',
     h1, h2, ':', i1, i2, ':', s1, s2, 'Z'] =>
    match digitVal y1, digitVal y2, digitVal y3, digitVal y4,
          digitVal m1, digitVal m2, digitVal d1, digitVal d2,
          digitVal h1, digitVal h2, digitVal i1, digitVal i2,
          digitVal s1, digitVal s2 with
    | some a, some b, some c, some d, some e, some f, some g, some h,
      some i, some j, some k, some l, some m, some n =>
        let year := ((a * 10 + b) * 10 + c) * 10 + d
        let month := e * 10 + f
        let day := g * 10 + h
        let hour := i * 10 + j
        let minute := k * 10 + l
        let second := m * 10 + n
        if 1 ≤ month ∧ month ≤ 12 ∧ 1 ≤ day ∧ day ≤ daysInMonth year month ∧
            hour < 24 ∧ minute < 60 ∧ second < 60 then
          some { day := daysFromCivil year month day,
                 sec := (hour * 60 + minute) * 60 + second }
        else none
    | _, _, _, _, _, _, _, _, _, _, _, _, _, _ => none
  | _ => none

/-- `RapidAPIBusService.SearchRoutes` after the transport call: `resp` is
either a transport/decode failure or the decoded envelope's `Routes`
records. Every record is kept: the time parses discard their errors
(`departureTime, _ := time.Parse(...)`), so an unparseable time yields the
zero `time.Time` instead of dropping the record, and the function returns
a nil error. -/
def rapidAPISearchRoutes (resp : Except String (List RapidAPIRoute))
    (req : SearchRequest) : Except String (List Route) :=
  match resp with
  | .error e => .error ("RapidAPI error: " ++ e)
  | .ok records =>
    let fromLoc := findLocation req.fromCity
    let toLoc := findLocation req.toCity
    .ok (records.map fun a =>
      { id := a.id
        fromLoc := fromLoc
        toLoc := toLoc
        operator := { id := goSlug a.operator, name := a.operator,
                      logo := "", rating := 38/10,
                      platform := "Transport API" }
        busType := { id := goSlug a.busType, name := a.busType,
                     seats := 0, amenities := a.amenities,
                     description := "" }
        departureTime := (parseRFC3339 a.departure).getD goZeroTime
        arrivalTime := (parseRFC3339 a.arrival).getD goZeroTime
        duration := a.duration
        price := { amount := a.price, currency := "INR",
                   platform := "Transport API" }
        availableSeats := a.seats
        bookingURL := "https://example-booking.com/book/" ++ a.id })

/-! ## HTTP-layer passenger handling (main.go: searchHandler,
routesHandler) -/

/-- Go `strconv.Atoi`: an optional sign followed by one or more decimal
digits (overflow, which also errors in Go, is not modelled as `Int` is
unbounded). -/
def atoi (s : String) : Option Int :=
  let cs := s.toList
  let (sign, digits) : Int × List Char :=
    match cs with
    | '-' :: rest => (-1, rest)
    | '+' :: rest => (1, rest)
    | _ => (1, cs)
  if digits = [] then none
  else if digits.all Char.isDigit then
    some (sign * (digits.foldl (fun a c => a * 10 + (c.toNat - 48)) 0 : Nat))
  else none

/-- The passenger handling of `routesHandler`: start from 1; if the
`passengers` query parameter is non-empty, parse it with `strconv.Atoi`,
and fall back to 1 on a parse error or a value below 1. -/
def routesHandlerPassengers (passengersStr : String) : Int :=
  if passengersStr = "" then 1
  else
    match atoi passengersStr with
    | none => 1
    | some v => if v < 1 then 1 else v

/-- The passenger defaulting of `searchHandler`: replace a decoded value
of exactly 0 with 1, leaving every other value (negatives included)
unchanged. -/
def searchHandlerPassengers (p : Int) : Int := if p = 0 then 1 else p

/-! ## The ranking sort (main.go: `sort.Slice(routes, func(i, j int) bool {
return routes[i].Price.Amount < routes[j].Price.Amount })` in
`searchHandler` and `routesHandler`).

Two models are given.
`rankRoutes` embeds the documented contract of `sort.Slice`: the result is
sorted with respect to the comparator and is a permutation of the input
(the contract deliberately does not promise stability).
`GoSort.sortSlice` below embeds the algorithm `sort.Slice` actually runs
(`pdqsort_func` from go/src/sort, Go 1.19 and later) step for step, to
settle what happens to equal-price offers: insertion sort for ranges of at
most 12 elements, heap sort once the bad-pivot limit is exhausted, and
otherwise pattern-defeating quicksort with Tukey-ninther pivot selection.
All loops are embedded with explicit fuel bounds chosen large enough that
the fuel case is never reached on the evaluated inputs. -/

/-- The comparator passed to `sort.Slice` by both handlers. -/
def routeLT (x y : Route) : Bool := x.price.amount < y.price.amount

/-- The non-strict order induced by `routeLT` (`sort.Slice` sorts so that
`less(j, i)` never holds for `i < j`, i.e. amounts are non-decreasing). -/
def routeLE (x y : Route) : Bool := x.price.amount ≤ y.price.amount

/-- `sort.Slice` by its contract: a sort of the input by price amount.
(The contract fixes the sortedness and permutation properties used by the
handlers; tie order is settled against `GoSort.sortSlice` instead.) -/
def rankRoutes (l : List Route) : List Route := l.mergeSort routeLE

namespace GoSort

variable {α : Type} [Inhabited α]

/-- `data.Swap(i, j)` (indices are always in bounds on the traces the
program runs; out-of-range indices leave the array unchanged where Go
would panic). -/
def aswap (xs : Array α) (i j : Nat) : Array α :=
  if h1 : i < xs.size then
    if h2 : j < xs.size then xs.swap ⟨i, h1⟩ ⟨j, h2⟩ else xs
  else xs

/-- `data.Less(i, j)`. -/
def lessAt (lt : α → α → Bool) (xs : Array α) (i j : Nat) : Bool :=
  lt (xs.getD i default) (xs.getD j default)

/-- Inner loop of `insertionSort_func`:
`for j := i; j > a && data.Less(j, j-1); j-- { data.Swap(j, j-1) }`
(fuel-recursive; starting fuel `j` always suffices as `j` decreases). -/
def insertInner (lt : α → α → Bool) (a : Nat) : Nat → Nat → Array α → Array α
  | 0, _, xs => xs
  | fuel + 1, j, xs =>
    if a < j ∧ lessAt lt xs j (j - 1) then
      insertInner lt a fuel (j - 1) (aswap xs j (j - 1))
    else xs

/-- `insertionSort_func(data, a, b)`. -/
def insertionSortA (lt : α → α → Bool) (xs : Array α) (a b : Nat) : Array α :=
  (List.range' (a + 1) (b - (a + 1))).foldl
    (fun ys i => insertInner lt a i i ys) xs

/-- `siftDown_func(data, lo, hi, first)` with explicit fuel (`hi` iterations
always suffice: the root at least doubles each step). -/
def siftDownA (lt : α → α → Bool) (first hi : Nat) :
    Nat → Nat → Array α → Array α
  | 0, _, xs => xs
  | fuel + 1, root, xs =>
    let child0 := 2 * root + 1
    if hi ≤ child0 then xs
    else
      let child :=
        if child0 + 1 < hi ∧ lessAt lt xs (first + child0) (first + child0 + 1)
        then child0 + 1 else child0
      if ¬ lessAt lt xs (first + root) (first + child) then xs
      else siftDownA lt first hi fuel child
        (aswap xs (first + root) (first + child))

/-- `heapSort_func(data, a, b)`. -/
def heapSortA (lt : α → α → Bool) (xs : Array α) (a b : Nat) : Array α :=
  let first := a
  let hi := b - a
  let xs := (List.range ((hi - 1) / 2 + 1)).reverse.foldl
    (fun ys i => siftDownA lt first hi hi i ys) xs
  (List.range hi).reverse.foldl
    (fun ys i => siftDownA lt first i hi 0 (aswap ys first (first + i))) xs

/-- `reverseRange_func(data, a, b)`. -/
def reverseRangeLoop : Nat → Nat → Nat → Array α → Array α
  | 0, _, _, xs => xs
  | fuel + 1, i, j, xs =>
    if i < j then reverseRangeLoop fuel (i + 1) (j - 1) (aswap xs i j) else xs

/-- `reverseRange_func` entry point. -/
def reverseRangeA (xs : Array α) (a b : Nat) : Array α :=
  reverseRangeLoop (b - a) a (b - 1) xs

/-- One step of the `xorshift` generator from go/src/sort
(`*r ^= *r << 13; *r ^= *r >> 7; *r ^= *r << 17` on `uint64`). -/
def xorshiftNext (r : Nat) : Nat :=
  let m := 2 ^ 64
  let r1 := (r ^^^ (r <<< 13)) % m
  let r2 := (r1 ^^^ (r1 >>> 7)) % m
  (r2 ^^^ (r2 <<< 17)) % m

/-- Binary length by repeated halving (`fuel ≥ n` always suffices). -/
def bitsLenAux : Nat → Nat → Nat
  | 0, _ => 0
  | fuel + 1, n => if n = 0 then 0 else bitsLenAux fuel (n / 2) + 1

/-- `bits.Len` (the number of bits required to represent `n`). -/
def bitsLen (n : Nat) : Nat := bitsLenAux n n

/-- `nextPowerOfTwo` from go/src/sort: `1 << bits.Len(uint(length))`. -/
def nextPowerOfTwo (n : Nat) : Nat := 1 <<< bitsLen n

/-- `breakPatterns_func(data, a, b)`: swap three elements around the
midpoint with pseudo-random targets from `xorshift(length)`. -/
def breakPatternsA (xs : Array α) (a b : Nat) : Array α :=
  let length := b - a
  if 8 ≤ length then
    let modulus := nextPowerOfTwo length
    let idx := a + (length / 4) * 2 - 1
    let step := fun (st : Array α × Nat) (i : Nat) =>
      let rnd := xorshiftNext st.2
      let other0 := rnd &&& (modulus - 1)
      let other := if length ≤ other0 then other0 - length else other0
      (aswap st.1 (idx - 1 + i) (a + other), rnd)
    ((List.range 3).foldl step (xs, length)).1
  else xs

/-- First inner loop of `partialInsertionSort_func`:
advance `i` while `i < b && !data.Less(i, i-1)`. -/
def paisAdvance (lt : α → α → Bool) (b : Nat) :
    Nat → Nat → Array α → Nat
  | 0, i, _ => i
  | fuel + 1, i, xs =>
    if i < b ∧ ¬ lessAt lt xs i (i - 1) then paisAdvance lt b fuel (i + 1) xs
    else i

/-- The leftward shifting loop of `partialInsertionSort_func`
(`for j := i - 1; j >= 1; j--`). -/
def shiftLeftLoop (lt : α → α → Bool) : Nat → Nat → Array α → Array α
  | 0, _, xs => xs
  | fuel + 1, j, xs =>
    if 1 ≤ j then
      if lessAt lt xs j (j - 1) then
        shiftLeftLoop lt fuel (j - 1) (aswap xs j (j - 1))
      else xs
    else xs

/-- The rightward shifting loop of `partialInsertionSort_func`
(`for j := i + 1; j < b; j++`). -/
def shiftRightLoop (lt : α → α → Bool) (b : Nat) :
    Nat → Nat → Array α → Array α
  | 0, _, xs => xs
  | fuel + 1, j, xs =>
    if j < b then
      if lessAt lt xs j (j - 1) then
        shiftRightLoop lt b fuel (j + 1) (aswap xs j (j - 1))
      else xs
    else xs

/-- `partialInsertionSort_func(data, a, b)`: at most `maxSteps = 5`
out-of-order pairs are repaired (`shortestShifting = 50`); returns whether
the range ended up sorted, plus the mutated array. -/
def partialInsertionSortLoop (lt : α → α → Bool) (a b : Nat) :
    Nat → Nat → Array α → Bool × Array α
  | 0, _, xs => (false, xs)
  | steps + 1, i, xs =>
    let i := paisAdvance lt b b i xs
    if i = b then (true, xs)
    else if b - a < 50 then (false, xs)
    else
      let xs := aswap xs i (i - 1)
      let xs := if 2 ≤ i - a then shiftLeftLoop lt i (i - 1) xs else xs
      let xs := if 2 ≤ b - i then shiftRightLoop lt b b (i + 1) xs else xs
      partialInsertionSortLoop lt a b steps i xs

/-- `partialInsertionSort_func` entry point (`maxSteps = 5`). -/
def partialInsertionSortA (lt : α → α → Bool) (xs : Array α) (a b : Nat) :
    Bool × Array α :=
  partialInsertionSortLoop lt a b 5 (a + 1) xs

/-- The pivot-quality hints of `choosePivot_func`. -/
inductive Hint | increasing | decreasing | unknown
deriving DecidableEq, Repr

/-- `order2_func(data, a, b, &swaps)`. -/
def order2 (lt : α → α → Bool) (xs : Array α) (a b swaps : Nat) :
    Nat × Nat × Nat :=
  if lessAt lt xs b a then (b, a, swaps + 1) else (a, b, swaps)

/-- `median_func(data, a, b, c, &swaps)`: returns the median index and the
updated swap count. -/
def median3 (lt : α → α → Bool) (xs : Array α) (a b c swaps : Nat) :
    Nat × Nat :=
  let p1 := order2 lt xs a b swaps
  let p2 := order2 lt xs p1.2.1 c p1.2.2
  let p3 := order2 lt xs p1.1 p2.1 p2.2.2
  (p3.2.1, p3.2.2)

/-- `medianAdjacent_func(data, a, &swaps)`. -/
def medianAdjacent (lt : α → α → Bool) (xs : Array α) (a swaps : Nat) :
    Nat × Nat :=
  median3 lt xs (a - 1) a (a + 1) swaps

/-- `choosePivot_func(data, a, b)` (`shortestNinther = 50`,
`maxSwaps = 12`). -/
def choosePivotA (lt : α → α → Bool) (xs : Array α) (a b : Nat) :
    Nat × Hint :=
  let l := b - a
  let i := a + l / 4 * 1
  let j := a + l / 4 * 2
  let k := a + l / 4 * 3
  if 8 ≤ l then
    let q :=
      if 50 ≤ l then
        let mi := medianAdjacent lt xs i 0
        let mj := medianAdjacent lt xs j mi.2
        let mk := medianAdjacent lt xs k mj.2
        (mi.1, mj.1, mk.1, mk.2)
      else (i, j, k, 0)
    let mj := median3 lt xs q.1 q.2.1 q.2.2.1 q.2.2.2
    match mj.2 with
    | 0 => (mj.1, Hint.increasing)
    | 12 => (mj.1, Hint.decreasing)
    | _ => (mj.1, Hint.unknown)
  else (j, Hint.increasing)

/-- `i`-advance of `partition_func`:
`for i <= j && data.Less(i, a) { i++ }`. -/
def partAdvance (lt : α → α → Bool) (a : Nat) :
    Nat → Nat → Nat → Array α → Nat
  | 0, i, _, _ => i
  | fuel + 1, i, j, xs =>
    if i ≤ j ∧ lessAt lt xs i a then partAdvance lt a fuel (i + 1) j xs else i

/-- `j`-retreat of `partition_func`:
`for i <= j && !data.Less(j, a) { j-- }`. -/
def partRetreat (lt : α → α → Bool) (a : Nat) :
    Nat → Nat → Nat → Array α → Nat
  | 0, _, j, _ => j
  | fuel + 1, i, j, xs =>
    if i ≤ j ∧ ¬ lessAt lt xs j a then partRetreat lt a fuel i (j - 1) xs
    else j

/-- Main loop of `partition_func` after the first crossing check. -/
def partitionLoop (lt : α → α → Bool) (a F : Nat) :
    Nat → Nat → Nat → Array α → (Nat × Bool) × Array α
  | 0, _, j, xs => ((j, false), xs)
  | fuel + 1, i, j, xs =>
    let i2 := partAdvance lt a F i j xs
    let j2 := partRetreat lt a F i2 j xs
    if j2 < i2 then ((j2, false), aswap xs j2 a)
    else partitionLoop lt a F fuel (i2 + 1) (j2 - 1) (aswap xs i2 j2)

/-- `partition_func(data, a, b, pivot)`: moves the pivot to `a`, partitions
`[a+1, b)` around it, and reports whether the range was already
partitioned. -/
def partitionA (lt : α → α → Bool) (xs : Array α) (a b pivot : Nat) :
    (Nat × Bool) × Array α :=
  let xs := aswap xs a pivot
  let i := a + 1
  let j := b - 1
  let i2 := partAdvance lt a b i j xs
  let j2 := partRetreat lt a b i2 j xs
  if j2 < i2 then ((j2, true), aswap xs j2 a)
  else partitionLoop lt a b b (i2 + 1) (j2 - 1) (aswap xs i2 j2)

/-- `i`-advance of `partitionEqual_func`:
`for i <= j && !data.Less(a, i) { i++ }`. -/
def peqAdvance (lt : α → α → Bool) (a : Nat) :
    Nat → Nat → Nat → Array α → Nat
  | 0, i, _, _ => i
  | fuel + 1, i, j, xs =>
    if i ≤ j ∧ ¬ lessAt lt xs a i then peqAdvance lt a fuel (i + 1) j xs
    else i

/-- `j`-retreat of `partitionEqual_func`:
`for i <= j && data.Less(a, j) { j-- }`. -/
def peqRetreat (lt : α → α → Bool) (a : Nat) :
    Nat → Nat → Nat → Array α → Nat
  | 0, _, j, _ => j
  | fuel + 1, i, j, xs =>
    if i ≤ j ∧ lessAt lt xs a j then peqRetreat lt a fuel i (j - 1) xs else j

/-- Loop of `partitionEqual_func`. -/
def partitionEqualLoop (lt : α → α → Bool) (a F : Nat) :
    Nat → Nat → Nat → Array α → Nat × Array α
  | 0, i, _, xs => (i, xs)
  | fuel + 1, i, j, xs =>
    let i2 := peqAdvance lt a F i j xs
    let j2 := peqRetreat lt a F i2 j xs
    if j2 < i2 then (i2, xs)
    else partitionEqualLoop lt a F fuel (i2 + 1) (j2 - 1) (aswap xs i2 j2)

/-- `partitionEqual_func(data, a, b, pivot)`. -/
def partitionEqualA (lt : α → α → Bool) (xs : Array α) (a b pivot : Nat) :
    Nat × Array α :=
  let xs := aswap xs a pivot
  partitionEqualLoop lt a b b (a + 1) (b - 1) xs

/-! One iteration of `pdqsort_func(data, a, b, limit)` (`maxInsertion =
12`) is transcribed as a pipeline of stage functions, each consuming the
previous statement's result; `recur` stands for both the recursive call on
the smaller side of a partition and the continued loop iteration on the
remaining range. Recursive entries pass fresh `wasBalanced =
wasPartitioned = true` exactly as the Go locals do, while the continued
iteration carries the updated flags. -/

/-- `mid, alreadyPartitioned := partition(data, a, b, pivot)` followed by
the balance bookkeeping and the smaller-side recursion: the smaller side
is sorted by the inner `recur`, then the loop continues on the bigger side
with `wasBalanced = min(leftLen, rightLen) >= length/8` and
`wasPartitioned = alreadyPartitioned`. -/
def stagePartition
    (recur : Array α → Nat → Nat → Nat → Bool → Bool → Array α)
    (a b limit : Nat) : (Nat × Bool) × Array α → Array α
  | ((mid, alreadyPartitioned), xs) =>
    if mid - a < b - mid then
      recur (recur xs a mid limit true true) (mid + 1) b limit
        (decide ((b - a) / 8 ≤ min (mid - a) (b - mid))) alreadyPartitioned
    else
      recur (recur xs (mid + 1) b limit true true) a mid limit
        (decide ((b - a) / 8 ≤ min (mid - a) (b - mid))) alreadyPartitioned

/-- `mid := partitionEqual(data, a, b, pivot); a = mid; continue` (the
duplicate-heavy branch): the loop continues with the current flags. -/
def stageEqual
    (recur : Array α → Nat → Nat → Nat → Bool → Bool → Array α)
    (b limit : Nat) (wasBalanced wasPartitioned : Bool) :
    Nat × Array α → Array α
  | (mid, xs) => recur xs mid b limit wasBalanced wasPartitioned

/-- After the `partialInsertionSort` attempt: return if it sorted the
range, otherwise partition around the pivot (choosing `partitionEqual`
when the element before the range is not less than the pivot). -/
def stagePartial (lt : α → α → Bool)
    (recur : Array α → Nat → Nat → Nat → Bool → Bool → Array α)
    (a b limit : Nat) (wasBalanced wasPartitioned : Bool) (pivot : Nat) :
    Bool × Array α → Array α
  | (done, xs) =>
    if done then xs
    else if 0 < a ∧ ¬ lessAt lt xs (a - 1) pivot then
      stageEqual recur b limit wasBalanced wasPartitioned
        (partitionEqualA lt xs a b pivot)
    else
      stagePartition recur a b limit (partitionA lt xs a b pivot)

/-- After the hint handling: if the slice is likely already sorted
(balanced, partitioned, increasing hint), try `partialInsertionSort`. -/
def stageHint (lt : α → α → Bool)
    (recur : Array α → Nat → Nat → Nat → Bool → Bool → Array α)
    (a b limit : Nat) (wasBalanced wasPartitioned : Bool) :
    Array α × Nat × Hint → Array α
  | (xs, pivot, hint) =>
    stagePartial lt recur a b limit wasBalanced wasPartitioned pivot
      (if wasBalanced ∧ wasPartitioned ∧ hint = Hint.increasing then
         partialInsertionSortA lt xs a b
       else (false, xs))

/-- After `choosePivot`: a decreasing hint reverses the range, mirrors the
pivot index, and proceeds with an increasing hint. -/
def stagePivot (lt : α → α → Bool)
    (recur : Array α → Nat → Nat → Nat → Bool → Bool → Array α)
    (a b limit : Nat) (wasBalanced wasPartitioned : Bool) :
    Nat × Hint → Array α → Array α
  | (pivot0, hint0), xs =>
    stageHint lt recur a b limit wasBalanced wasPartitioned
      (if hint0 = Hint.decreasing then
         (reverseRangeA xs a b, (b - 1) - (pivot0 - a), Hint.increasing)
       else (xs, pivot0, hint0))

/-- After the `breakPatterns` step (run only when the previous
partitioning was imbalanced, consuming one unit of `limit`):
choose the pivot. -/
def stageBreak (lt : α → α → Bool)
    (recur : Array α → Nat → Nat → Nat → Bool → Bool → Array α)
    (a b : Nat) (wasBalanced wasPartitioned : Bool) :
    Array α × Nat → Array α
  | (xs, limit) =>
    stagePivot lt recur a b limit wasBalanced wasPartitioned
      (choosePivotA lt xs a b) xs

/-- One full iteration of `pdqsort_func`: insertion sort for short ranges,
heap sort once `limit` is exhausted, otherwise the pipeline above. -/
def pdqsortStep (lt : α → α → Bool)
    (recur : Array α → Nat → Nat → Nat → Bool → Bool → Array α)
    (xs : Array α) (a b limit : Nat) (wasBalanced wasPartitioned : Bool) :
    Array α :=
  if b - a ≤ 12 then insertionSortA lt xs a b
  else if limit = 0 then heapSortA lt xs a b
  else
    stageBreak lt recur a b wasBalanced wasPartitioned
      (if ¬ wasBalanced then (breakPatternsA xs a b, limit - 1)
       else (xs, limit))

/-- The outer `for` loop of `pdqsort_func` as fuel recursion over
`pdqsortStep`. -/
def pdqsortLoop (lt : α → α → Bool) :
    Nat → Array α → Nat → Nat → Nat → Bool → Bool → Array α
  | 0, xs, _, _, _, _, _ => xs
  | fuel + 1, xs, a, b, limit, wasBalanced, wasPartitioned =>
    pdqsortStep lt (pdqsortLoop lt fuel) xs a b limit wasBalanced
      wasPartitioned

/-- `sort.Slice(x, less)`: `limit = bits.Len(uint(length))`, then
`pdqsort_func(lessSwap, 0, length, limit)`. The fuel bound exceeds any
possible number of outer-loop iterations. -/
def sortSlice (lt : α → α → Bool) (xs : Array α) : Array α :=
  pdqsortLoop lt (2 * xs.size + 128) xs 0 xs.size (bitsLen xs.size) true true

end GoSort

/-- The ranking as the handlers execute it: `sort.Slice` (pdqsort) applied
to the aggregated routes with the price comparator. -/
def rankRoutesImpl (l : List Route) : List Route :=
  (GoSort.sortSlice routeLT l.toArray).toList

/-! ## Concrete fixtures used by witnesses and counterexamples -/

/-- The scenario criteria of the specification:
`{from: "Mumbai", to: "Pune", date: 2025-08-21, passengers: 2}`
(2025-08-21 is day 20321 since 1970-01-01). -/
def reqMumbaiPune : SearchRequest :=
  { fromCity := "Mumbai", toCity := "Pune",
    date := { day := 20321, sec := 0 }, passengers := 2 }

/-- A request neither of whose endpoint cities has an entry in the sample
table. -/
def reqAtlantis : SearchRequest :=
  { fromCity := "Atlantis", toCity := "El Dorado",
    date := { day := 20321, sec := 0 }, passengers := 1 }

/-- A fixed bus-type draw (`rand.Intn(3) = 0` every iteration). -/
def constBT : Nat → Fin 3 := fun _ => 0

/-- A fixed seat draw (`rand.Intn(_) = 0` every iteration). -/
def constSeat : Nat → Nat := fun _ => 0

/-- A minimal offer with the given identifier and price amount, used to
exercise the aggregator and the ranking sort. -/
def mkOffer (name : String) (amt : Rat) : Route :=
  { id := name
    fromLoc := zeroLocation
    toLoc := zeroLocation
    operator := { id := "", name := "", logo := "", rating := 0,
                  platform := "" }
    busType := { id := "", name := "", seats := 0, amenities := [],
                 description := "" }
    departureTime := { day := 0, sec := 0 }
    arrivalTime := { day := 0, sec := 0 }
    duration := ""
    price := { amount := amt, currency := "INR", platform := "RedBus" }
    availableSeats := 0
    bookingURL := "" }

/-- Provider reports for a two-provider round: provider 0 fails, provider 1
succeeds with one offer. -/
def outsMixed : List SearchResult :=
  [([], some "RedBus provider down"), ([mkOffer "mock_1" 500], none)]

/-- A valid interleaving for `outsMixed` in which provider 0's error send
is delivered first, then provider 1's routes send: the collector pairs
provider 1's routes with provider 0's error. -/
def evMixed : Schedule := [(0, false), (1, false), (1, true), (0, true)]

/-- A single all-failing provider round. -/
def outsAllFail : List SearchResult := [([], some "redbus down")]

/-- The canonical (per-provider, in-order) schedule for one provider. -/
def evSingle : Schedule := [(0, false), (0, true)]

/-- The three registered mock providers' reports for one round, with the
price, count, bus-type and seat draws explicit. -/
def mockOuts (req : SearchRequest) (bp1 bp2 bp3 : Rat) (n1 n2 n3 : Nat)
    (bt1 bt2 bt3 : Nat → Fin 3) (st1 st2 st3 : Nat → Nat) :
    List SearchResult :=
  [redBusSearchRoutes req bp1 n1 bt1 st1,
   makeMyTripSearchRoutes req bp2 n2 bt2 st2,
   goibiboSearchRoutes req bp3 n3 bt3 st3]

/-- A concrete three-mock round with every count draw at its minimum
(`Intn(3) = 0`, `Intn(4) = 0`, `Intn(3) = 0`). -/
def outsMinDraws : List SearchResult :=
  mockOuts reqMumbaiPune 500 450 600 0 0 0 constBT constBT constBT
    constSeat constSeat constSeat

/-- A RedBus wire record with an overnight journey (departs 22:30, arrives
06:15 the next morning). -/
def rbOvernight : RedBusRoute :=
  { id := "rb_101", operatorName := "Orange Travels", busType := "AC Sleeper",
    departureTime := "22:30", arrivalTime := "06:15", duration := "7h 45m",
    fare := 899, availableSeats := 14, amenities := ["Blanket"],
    boardingPoints := ["Dadar"], droppingPoints := ["Pune Station"] }

/-- A well-formed RedBus wire record (same-day journey). -/
def rbGood : RedBusRoute :=
  { id := "rb_102", operatorName := "VRL Travels", busType := "Volvo AC",
    departureTime := "06:00", arrivalTime := "09:30", duration := "3h 30m",
    fare := 520, availableSeats := 20, amenities := ["WiFi"],
    boardingPoints := ["Kurla"], droppingPoints := ["Katraj"] }

/-- A malformed RedBus wire record: its departure time does not parse with
layout "15:04". -/
def rbBad : RedBusRoute :=
  { id := "rb_103", operatorName := "Ghost Lines", busType := "Sleeper",
    departureTime := "whenever", arrivalTime := "25:99", duration := "",
    fare := 100, availableSeats := 1, amenities := [],
    boardingPoints := [], droppingPoints := [] }

/-- A well-formed RapidAPI wire record. -/
def rapidGood : RapidAPIRoute :=
  { id := "ta_1", operator := "Orange Travels",
    departure := "2025-08-21T06:00:00Z", arrival := "2025-08-21T09:30:00Z",
    price := 450, duration := "3h 30m", busType := "AC Sleeper",
    seats := 12, amenities := ["WiFi"] }

/-- A RapidAPI wire record with unparseable time fields. -/
def rapidBad : RapidAPIRoute :=
  { id := "ta_2", operator := "Ghost Lines",
    departure := "not-a-time", arrival := "also-bad",
    price := 300, duration := "", busType := "Seater",
    seats := 5, amenities := [] }

/-- A 13-offer list on which `sort.Slice`'s pdqsort reorders price ties
(13 exceeds `maxInsertion = 12`, so pdqsort partitions instead of
insertion-sorting; distinct identifiers record input order; offers "o1"
and "o5" share price amount 1). -/
def tieOffers : List Route :=
  [mkOffer "o0" 9, mkOffer "o1" 1, mkOffer "o2" 2, mkOffer "o3" 3,
   mkOffer "o4" 4, mkOffer "o5" 1, mkOffer "o6" 5, mkOffer "o7" 6,
   mkOffer "o8" 7, mkOffer "o9" 8, mkOffer "o10" 6, mkOffer "o11" 7,
   mkOffer "o12" 8]

/-- `tieOffers` after pdqsort's partition step (`Swap(0, 6)` moving the
pivot "o6" to the front, then `Swap(5, 0)` placing it at the crossing):
"o5" has jumped in front of the equal-priced "o1". -/
def tieOffersMid : Array Route :=
  #[mkOffer "o5" 1, mkOffer "o1" 1, mkOffer "o2" 2, mkOffer "o3" 3,
    mkOffer "o4" 4, mkOffer "o6" 5, mkOffer "o0" 9, mkOffer "o7" 6,
    mkOffer "o8" 7, mkOffer "o9" 8, mkOffer "o10" 6, mkOffer "o11" 7,
    mkOffer "o12" 8]

/-- The final pdqsort result for `tieOffers`: sorted by amount, with the
price tie "o1"/"o5" in reversed input order. -/
def tieOffersRanked : Array Route :=
  #[mkOffer "o5" 1, mkOffer "o1" 1, mkOffer "o2" 2, mkOffer "o3" 3,
    mkOffer "o4" 4, mkOffer "o6" 5, mkOffer "o7" 6, mkOffer "o10" 6,
    mkOffer "o8" 7, mkOffer "o11" 7, mkOffer "o9" 8, mkOffer "o12" 8,
    mkOffer "o0" 9]

/-! Intermediate states of the insertion sort that pdqsort runs on
`tieOffersMid[6:13]` (one array per outer iteration `i = 7..11`; used to
evaluate the sort one loop iteration at a time). -/

/-- `tieOffersMid` after the insertion-sort iteration `i = 7`. -/
def tieStep7 : Array Route :=
  #[mkOffer "o5" 1, mkOffer "o1" 1, mkOffer "o2" 2, mkOffer "o3" 3,
    mkOffer "o4" 4, mkOffer "o6" 5, mkOffer "o7" 6, mkOffer "o0" 9,
    mkOffer "o8" 7, mkOffer "o9" 8, mkOffer "o10" 6, mkOffer "o11" 7,
    mkOffer "o12" 8]

/-- `tieStep7` after the insertion-sort iteration `i = 8`. -/
def tieStep8 : Array Route :=
  #[mkOffer "o5" 1, mkOffer "o1" 1, mkOffer "o2" 2, mkOffer "o3" 3,
    mkOffer "o4" 4, mkOffer "o6" 5, mkOffer "o7" 6, mkOffer "o8" 7,
    mkOffer "o0" 9, mkOffer "o9" 8, mkOffer "o10" 6, mkOffer "o11" 7,
    mkOffer "o12" 8]

/-- `tieStep8` after the insertion-sort iteration `i = 9`. -/
def tieStep9 : Array Route :=
  #[mkOffer "o5" 1, mkOffer "o1" 1, mkOffer "o2" 2, mkOffer "o3" 3,
    mkOffer "o4" 4, mkOffer "o6" 5, mkOffer "o7" 6, mkOffer "o8" 7,
    mkOffer "o9" 8, mkOffer "o0" 9, mkOffer "o10" 6, mkOffer "o11" 7,
    mkOffer "o12" 8]

/-- `tieStep9` after the insertion-sort iteration `i = 10`. -/
def tieStep10 : Array Route :=
  #[mkOffer "o5" 1, mkOffer "o1" 1, mkOffer "o2" 2, mkOffer "o3" 3,
    mkOffer "o4" 4, mkOffer "o6" 5, mkOffer "o7" 6, mkOffer "o10" 6,
    mkOffer "o8" 7, mkOffer "o9" 8, mkOffer "o0" 9, mkOffer "o11" 7,
    mkOffer "o12" 8]

/-- `tieStep10` after the insertion-sort iteration `i = 11`. -/
def tieStep11 : Array Route :=
  #[mkOffer "o5" 1, mkOffer "o1" 1, mkOffer "o2" 2, mkOffer "o3" 3,
    mkOffer "o4" 4, mkOffer "o6" 5, mkOffer "o7" 6, mkOffer "o10" 6,
    mkOffer "o8" 7, mkOffer "o11" 7, mkOffer "o9" 8, mkOffer "o0" 9,
    mkOffer "o12" 8]

/-! ## Helper lemmas -/

/-- `routeLE` is transitive (as the decidable reflection of `≤` on `Rat`). -/
theorem routeLE_trans : ∀ a b c : Route,
    routeLE a b = true → routeLE b c = true → routeLE a c = true := by
  intro a b c hab hbc
  simp only [routeLE, decide_eq_true_eq] at *
  exact le_trans hab hbc

/-- `routeLE` is total. -/
theorem routeLE_total : ∀ a b : Route,
    (routeLE a b || routeLE b a) = true := by
  intro a b
  simp only [routeLE, Bool.or_eq_true, decide_eq_true_eq]
  exact le_total _ _

/-! ## C1 -/

/-- C1: For every input offer list, the ResultRanker's output (the sort
applied after SearchAllPlatforms in the search handlers) is non-decreasing
in price amount and is a permutation of its input: no offer is added,
dropped, or modified by ranking. -/
theorem rankRoutes_sorted_perm (l : List Route) :
    (rankRoutes l).Pairwise
        (fun a b => a.price.amount ≤ b.price.amount) ∧
      (rankRoutes l).Perm l := by
  constructor
  · have h := @List.sorted_mergeSort Route routeLE routeLE_trans
      routeLE_total l
    exact h.imp fun hab => by
      simpa only [routeLE, decide_eq_true_eq] using hab
  · exact List.mergeSort_perm l routeLE

/-! ## C4 -/

/-- C4: For every HTTPClient instance configured with rate interval R > 0,
two sequential invocations of MakeRequest on that instance are separated by
at least R of elapsed time (measured between the starts of the two network
operations), and the instance's last-call time is recorded as the moment
the wait completes, before the network operation begins. -/
theorem makeRequest_rate_spacing (cfg : APIConfig)
    (lastCall now1 now2 d1 d2 : Nat)
    (hpos : 0 < cfg.rateLimit) (h1 : lastCall ≤ now1)
    (h2 : (makeRequestTiming cfg lastCall now1 d1).recordedLastCall ≤ now2) :
    (makeRequestTiming cfg lastCall now1 d1).netStart + cfg.rateLimit ≤
        (makeRequestTiming cfg
          (makeRequestTiming cfg lastCall now1 d1).recordedLastCall
          now2 d2).netStart ∧
      (makeRequestTiming cfg lastCall now1 d1).recordedLastCall =
          (makeRequestTiming cfg lastCall now1 d1).netStart ∧
      (makeRequestTiming cfg lastCall now1 d1).netStart ≤
          (makeRequestTiming cfg lastCall now1 d1).finish := by
  refine ⟨?_, rfl, by simp [makeRequestTiming]⟩
  simp only [makeRequestTiming] at h2 ⊢
  have h1' : lastCall ≤ rateLimitWake cfg lastCall now1 := by
    simp only [rateLimitWake, if_pos hpos]
    split <;> omega
  generalize rateLimitWake cfg lastCall now1 = w1 at h1' h2 ⊢
  simp only [rateLimitWake, if_pos hpos]
  split <;> omega

/-- Witness for C4 at `R = 1s` (nanoseconds): first call at `now = 5`
(waking at `10^9`), second at `now = 2 * 10^9`. -/
theorem makeRequest_rate_spacing_witness :
    (makeRequestTiming ⟨"", "", "", "", 0, 1000000000⟩ 0 5 7).netStart
        + 1000000000 ≤
      (makeRequestTiming ⟨"", "", "", "", 0, 1000000000⟩
        (makeRequestTiming ⟨"", "", "", "", 0, 1000000000⟩ 0 5 7).recordedLastCall
        2000000000 9).netStart :=
  (makeRequest_rate_spacing ⟨"", "", "", "", 0, 1000000000⟩ 0 5 2000000000 7 9
    (by decide) (by decide) (by decide)).1

/-! ## C10 -/

/-- C10: In the GET /routes handler, the passenger count defaults to 1 when
the passengers query parameter is omitted (the empty string), non-numeric,
or numerically less than 1 — and is kept otherwise; by contrast the POST
/search handler defaults passengers to 1 only when the decoded field equals
0, leaving negative values unchanged. -/
theorem passenger_defaults :
    routesHandlerPassengers "" = 1 ∧
    (∀ s, atoi s = none → routesHandlerPassengers s = 1) ∧
    (∀ s v, atoi s = some v → v < 1 → routesHandlerPassengers s = 1) ∧
    (∀ s v, atoi s = some v → 1 ≤ v → routesHandlerPassengers s = v) ∧
    searchHandlerPassengers 0 = 1 ∧
    (∀ p : Int, p ≠ 0 → searchHandlerPassengers p = p) := by
  refine ⟨rfl, ?_, ?_, ?_, rfl, ?_⟩
  · intro s h
    by_cases hs : s = "" <;> simp [routesHandlerPassengers, hs, h]
  · intro s v h hv
    by_cases hs : s = "" <;>
      simp [routesHandlerPassengers, hs, h, if_pos hv]
  · intro s v h hv
    have hs : s ≠ "" := by
      intro he; subst he; simp [atoi] at h
    simp [routesHandlerPassengers, hs, h, Int.not_lt.mpr hv]
  · intro p hp
    simp [searchHandlerPassengers, hp]

/-- Witness for C10: a non-numeric parameter, a negative parameter, a kept
positive parameter, and an untouched negative JSON field. -/
theorem passenger_defaults_witness :
    routesHandlerPassengers "abc" = 1 ∧
    routesHandlerPassengers "-3" = 1 ∧
    routesHandlerPassengers "7" = 7 ∧
    searchHandlerPassengers (-2) = -2 :=
  ⟨passenger_defaults.2.1 "abc" (by decide),
   passenger_defaults.2.2.1 "-3" (-3) (by decide) (by decide),
   passenger_defaults.2.2.2.1 "7" 7 (by decide) (by decide),
   passenger_defaults.2.2.2.2.2 (-2) (by decide)⟩

/-! ## C9 -/

/-- The location-lookup fold keeps its accumulator when no list entry
matches the requested city. -/
theorem foldl_location_unmatched (city : String) :
    ∀ (l : List Location) (acc : Location),
      (∀ loc ∈ l, loc.city ≠ city) →
        l.foldl (fun acc loc => if loc.city = city then loc else acc) acc
          = acc := by
  intro l
  induction l with
  | nil => intro acc _; rfl
  | cons x xs ih =>
    intro acc h
    have hx : x.city ≠ city := h x (by simp)
    simp only [List.foldl_cons, if_neg hx]
    exact ih acc fun loc hl => h loc (by simp [hl])

/-- An unmatched city resolves to the zero-valued `Location`. -/
theorem findLocation_unmatched (city : String)
    (h : ∀ loc ∈ getSampleLocations, loc.city ≠ city) :
    findLocation city = zeroLocation :=
  foldl_location_unmatched city getSampleLocations zeroLocation h

/-- C9: For every SearchRequest and every randomness draw, each mock
provider's SearchRoutes returns a nil error; and when the requested origin
(resp. destination) city has no entry in the static location table, every
returned offer carries the zero-valued `Location` as its origin (resp.
destination) rather than an error being raised. -/
theorem mock_services_never_error (req : SearchRequest)
    (bp1 bp2 bp3 : Rat) (n1 n2 n3 : Nat) (bt1 bt2 bt3 : Nat → Fin 3)
    (st1 st2 st3 : Nat → Nat) :
    (redBusSearchRoutes req bp1 n1 bt1 st1).2 = none ∧
    (makeMyTripSearchRoutes req bp2 n2 bt2 st2).2 = none ∧
    (goibiboSearchRoutes req bp3 n3 bt3 st3).2 = none ∧
    ((∀ loc ∈ getSampleLocations, loc.city ≠ req.fromCity) →
      (∀ r ∈ (redBusSearchRoutes req bp1 n1 bt1 st1).1,
          r.fromLoc = zeroLocation) ∧
      (∀ r ∈ (makeMyTripSearchRoutes req bp2 n2 bt2 st2).1,
          r.fromLoc = zeroLocation) ∧
      (∀ r ∈ (goibiboSearchRoutes req bp3 n3 bt3 st3).1,
          r.fromLoc = zeroLocation)) ∧
    ((∀ loc ∈ getSampleLocations, loc.city ≠ req.toCity) →
      (∀ r ∈ (redBusSearchRoutes req bp1 n1 bt1 st1).1,
          r.toLoc = zeroLocation) ∧
      (∀ r ∈ (makeMyTripSearchRoutes req bp2 n2 bt2 st2).1,
          r.toLoc = zeroLocation) ∧
      (∀ r ∈ (goibiboSearchRoutes req bp3 n3 bt3 st3).1,
          r.toLoc = zeroLocation)) := by
  refine ⟨rfl, rfl, rfl, ?_, ?_⟩
  · intro hmiss
    have hz := findLocation_unmatched req.fromCity hmiss
    refine ⟨?_, ?_, ?_⟩ <;>
      · intro r hr
        simp only [redBusSearchRoutes, makeMyTripSearchRoutes,
          goibiboSearchRoutes, List.mem_map, List.mem_range] at hr
        obtain ⟨i, _, rfl⟩ := hr
        exact hz
  · intro hmiss
    have hz := findLocation_unmatched req.toCity hmiss
    refine ⟨?_, ?_, ?_⟩ <;>
      · intro r hr
        simp only [redBusSearchRoutes, makeMyTripSearchRoutes,
          goibiboSearchRoutes, List.mem_map, List.mem_range] at hr
        obtain ⟨i, _, rfl⟩ := hr
        exact hz

/-- Witness for C9: the cities "Atlantis" and "El Dorado" are absent from
the sample table; the RedBus mock still succeeds and every offer carries
the zero-valued `Location` at both endpoints. -/
theorem mock_services_never_error_witness :
    (redBusSearchRoutes reqAtlantis 500 0 constBT constSeat).2 = none ∧
    (∀ r ∈ (redBusSearchRoutes reqAtlantis 500 0 constBT constSeat).1,
        r.fromLoc = zeroLocation) ∧
    (∀ r ∈ (redBusSearchRoutes reqAtlantis 500 0 constBT constSeat).1,
        r.toLoc = zeroLocation) := by
  have h := mock_services_never_error reqAtlantis 500 450 600 0 0 0
    constBT constBT constBT constSeat constSeat constSeat
  exact ⟨h.1, (h.2.2.2.1 (by decide)).1, (h.2.2.2.2 (by decide)).1⟩

/-! ## C2 and C3: channel lemmas -/

/-- When every provider fails, every value delivered on `routesChan` is the
`nil` sent on the error path. -/
theorem routesChan_all_none (outs : List SearchResult) (ev : Schedule)
    (hfail : ∀ res ∈ outs, res.2.isSome) :
    ∀ x ∈ routesChan outs ev, x = none := by
  intro x hx
  rw [routesChan, List.mem_filterMap] at hx
  obtain ⟨e, _, hfe⟩ := hx
  cases hget : outs.get? e.1 with
  | none => rw [hget] at hfe; exact absurd hfe (by simp)
  | some res =>
    rw [hget] at hfe
    have hsome := hfail res (List.get?_mem hget)
    have hnone : res.2.isNone = false := by
      cases h2 : res.2 <;> simp [h2] at hsome ⊢
    simp only [Option.some_bind] at hfe
    split at hfe
    · rw [hnone] at hfe
      simpa using hfe.symm
    · exact absurd hfe (by simp)

/-- The collect loop leaves the accumulator unchanged when every delivered
routes value is `nil`. -/
theorem collect_of_routes_none (rc : List (Option (List Route))) :
    ∀ (ec : List (Option String)) (acc : List Route),
      (∀ x ∈ rc, x = none) →
        (rc.zip ec).foldl collectStep acc = acc := by
  induction rc with
  | nil => intro ec acc _; simp
  | cons r rc ih =>
    intro ec acc hall
    cases ec with
    | nil => simp
    | cons e ec =>
      have hr : r = none := hall r (by simp)
      subst hr
      have hstep : collectStep acc (none, e) = acc := by
        cases he : e.isSome <;> simp [collectStep, he]
      simp only [List.zip_cons_cons, List.foldl_cons, hstep]
      exact ih ec acc fun x hx => hall x (by simp [hx])

/-! ## C2 -/

/-- C2: The aggregation call SearchAllPlatforms itself never fails: for
every provider report list and every valid interleaving of the channel
sends, the returned error is nil (so an error can only arise under the
claim's precondition cases, vacuously); in particular for a non-empty
provider set the error is nil regardless of how many providers failed, and
when every provider fails the result is a successful empty list. -/
theorem searchAllPlatforms_never_fails (outs : List SearchResult)
    (ev : Schedule) (_hv : validSchedule outs.length ev) :
    (searchAllPlatforms outs ev).2 = none ∧
      ((∀ res ∈ outs, res.2.isSome) →
        searchAllPlatforms outs ev = ([], none)) := by
  refine ⟨rfl, fun hfail => ?_⟩
  have hrc := routesChan_all_none outs ev hfail
  unfold searchAllPlatforms collectRoutes
  rw [collect_of_routes_none _ _ _ hrc]

/-- Witness for C2: a single provider that fails outright, under the
canonical schedule; the round still returns `([], nil)`. -/
theorem searchAllPlatforms_never_fails_witness :
    (searchAllPlatforms outsAllFail evSingle).2 = none ∧
      searchAllPlatforms outsAllFail evSingle = ([], none) := by
  have h := searchAllPlatforms_never_fails outsAllFail evSingle (by decide)
  exact ⟨h.1, h.2 (by decide)⟩

/-! ## C3 -/

/-- C3 (the code violates the claim): with two providers — provider 0
failing, provider 1 succeeding with one offer — the interleaving
`evMixed` (error send of provider 0 delivered first, routes send of
provider 1 first on its channel) is a valid execution, yet the round
returns the empty list: the collector pairs provider 1's routes with
provider 0's error and discards them, so the output is not the
concatenation of the successful providers' offer lists. -/
theorem searchAllPlatforms_drops_success :
    validSchedule 2 evMixed ∧
      searchAllPlatforms outsMixed evMixed = ([], none) ∧
      ([] : List Route) ≠ [mkOffer "mock_1" 500] := by
  refine ⟨by decide, rfl, by decide⟩

/-! ## C5 -/

/-- A successful "15:04" parse yields an in-range clock time. -/
theorem parseHHMM_bounds (s : String) (h m : Nat)
    (hp : parseHHMM s = some (h, m)) : h < 24 ∧ m < 60 := by
  unfold parseHHMM at hp
  repeat' split at hp
  all_goals simp_all
  all_goals omega

/-- C5: For every provider record whose raw times both parse with layout
"15:04", the converted offer's departure timestamp is the search date
combined with the departure clock time; and its arrival timestamp is the
search date combined with the arrival clock time, advanced by exactly one
day when the arrival clock time is numerically earlier than the departure
clock time, and kept on the search date otherwise. -/
theorem convertRedBusRoute_overnight (rb : RedBusRoute)
    (req : SearchRequest) (dh dm ah am : Nat)
    (hdep : parseHHMM rb.departureTime = some (dh, dm))
    (harr : parseHHMM rb.arrivalTime = some (ah, am)) :
    (convertRedBusRoute rb req).map
        (fun r => (r.departureTime, r.arrivalTime)) =
      some (⟨req.date.day, (dh * 60 + dm) * 60⟩,
        if ah * 60 + am < dh * 60 + dm then
          ⟨req.date.day + 1, (ah * 60 + am) * 60⟩
        else
          ⟨req.date.day, (ah * 60 + am) * 60⟩) := by
  obtain ⟨ha24, ha60⟩ := parseHHMM_bounds _ _ _ harr
  unfold convertRedBusRoute
  rw [hdep, harr]
  simp only [Option.map_some]
  split
  · have hsec : (ah * 60 + am) * 60 < 86400 := by omega
    have hdiv : ((ah * 60 + am) * 60 + 86400) / 86400 = 1 := by omega
    have hmod : ((ah * 60 + am) * 60 + 86400) % 86400 = (ah * 60 + am) * 60 := by
      omega
    simp [GoTime.addSeconds, hdiv, hmod]
  · simp

/-- Witness for C5: an overnight record (departs 22:30, arrives 06:15) has
its arrival placed on the day after the search date. -/
theorem convertRedBusRoute_overnight_witness :
    (convertRedBusRoute rbOvernight reqMumbaiPune).map
        (fun r => (r.departureTime, r.arrivalTime)) =
      some (⟨20321, (22 * 60 + 30) * 60⟩, ⟨20321 + 1, (6 * 60 + 15) * 60⟩) := by
  have h := convertRedBusRoute_overnight rbOvernight reqMumbaiPune
    22 30 6 15 (by decide) (by decide)
  simpa using h

/-! ## C6 -/

/-- C6 counterexample: a RapidAPI response whose envelope decodes and which
contains one well-formed and one malformed record (unparseable time
fields) yields two RouteOffers, not one — `RapidAPIBusService` never
discards a record, it swallows the time-parse errors — so the claim's
"exactly one RouteOffer" fails (the error is still nil). -/
theorem rapidAPI_keeps_malformed_record :
    (rapidAPISearchRoutes (Except.ok [rapidGood, rapidBad])
        reqMumbaiPune).map List.length = Except.ok 2 ∧
      parseRFC3339 rapidBad.departure = none ∧ (2 : Nat) ≠ 1 := by
  refine ⟨rfl, rfl, by decide⟩

/-- C6 as amended: for the RealRedBusService adapter, a decoded response
with one well-formed and one malformed record yields exactly one
RouteOffer and a nil error (the malformed record is skipped); the
RapidAPIBusService adapter instead keeps every decoded record — malformed
time fields are replaced by the zero time — and also raises no error. -/
theorem malformed_record_handling (req : SearchRequest)
    (g b : RedBusRoute)
    (hg : (convertRedBusRoute g req).isSome)
    (hb : convertRedBusRoute b req = none) :
    (realRedBusSearchRoutes (Except.ok [g, b]) req).map List.length
        = Except.ok 1 ∧
      ∀ rts : List RapidAPIRoute,
        (rapidAPISearchRoutes (Except.ok rts) req).map List.length
          = Except.ok rts.length := by
  constructor
  · obtain ⟨r, hr⟩ := Option.isSome_iff_exists.mp hg
    simp [realRedBusSearchRoutes, List.filterMap, hr, hb, Except.map]
  · intro rts
    simp [rapidAPISearchRoutes, Except.map]

/-- Witness for C6's amended claim: concrete good/bad RedBus records and a
concrete RapidAPI record list. -/
theorem malformed_record_handling_witness :
    (realRedBusSearchRoutes (Except.ok [rbGood, rbBad])
        reqMumbaiPune).map List.length = Except.ok 1 ∧
      (rapidAPISearchRoutes (Except.ok [rapidGood, rapidBad])
          reqMumbaiPune).map List.length = Except.ok 2 := by
  have h := malformed_record_handling reqMumbaiPune rbGood rbBad
    (by decide) (by decide)
  exact ⟨h.1, h.2 [rapidGood, rapidBad]⟩

/-! ## C7: evaluation of the pdqsort run on `tieOffers`

`tieOffers` has 13 elements, one more than pdqsort's insertion-sort cutoff,
so `sort.Slice` partitions: `choosePivot` picks index 6 (median of indices
3, 6, 9, no swaps, hence an increasing hint), `partialInsertionSort` bails
out at the first out-of-order pair (the range is shorter than 50), and
`partition` takes its already-partitioned fast path — whose two swaps move
offer "o5" in front of the equal-priced offer "o1". The insertion sorts of
the two sides are stable and keep that inversion. Each step below is
evaluated as its own small lemma. -/

set_option maxRecDepth 100000

/-- `choosePivot` on `tieOffers`: pivot index 6, increasing hint. -/
theorem tie_choosePivot :
    GoSort.choosePivotA routeLT tieOffers.toArray 0 13
      = (6, GoSort.Hint.increasing) := by decide

/-- `partialInsertionSort` on `tieOffers`: not sorted, nothing shifted. -/
theorem tie_partialInsertion :
    GoSort.partialInsertionSortA routeLT tieOffers.toArray 0 13
      = (false, tieOffers.toArray) := by decide

/-- `partition` on `tieOffers` around index 6: fast path (already
partitioned), crossing at 5, with "o5" swapped in front of "o1". -/
theorem tie_partition :
    GoSort.partitionA routeLT tieOffers.toArray 0 13 6
      = ((5, true), tieOffersMid) := by decide

/-- The left side `[0, 5)` of `tieOffersMid` is already sorted. -/
theorem tie_insertLeft :
    GoSort.insertionSortA routeLT tieOffersMid 0 5 = tieOffersMid := by
  decide

/-- Insertion-sort iteration `i = 7` on the right side. -/
theorem tie_insert7 :
    GoSort.insertInner routeLT 6 7 7 tieOffersMid = tieStep7 := by decide

/-- Insertion-sort iteration `i = 8` on the right side. -/
theorem tie_insert8 :
    GoSort.insertInner routeLT 6 8 8 tieStep7 = tieStep8 := by decide

/-- Insertion-sort iteration `i = 9` on the right side. -/
theorem tie_insert9 :
    GoSort.insertInner routeLT 6 9 9 tieStep8 = tieStep9 := by decide

/-- Insertion-sort iteration `i = 10` on the right side. -/
theorem tie_insert10 :
    GoSort.insertInner routeLT 6 10 10 tieStep9 = tieStep10 := by decide

/-- Insertion-sort iteration `i = 11` on the right side. -/
theorem tie_insert11 :
    GoSort.insertInner routeLT 6 11 11 tieStep10 = tieStep11 := by decide

/-- Insertion-sort iteration `i = 12` on the right side. -/
theorem tie_insert12 :
    GoSort.insertInner routeLT 6 12 12 tieStep11 = tieOffersRanked := by
  decide

/-- The full insertion sort of the right side `[6, 13)`. -/
theorem tie_insertRight :
    GoSort.insertionSortA routeLT tieOffersMid 6 13 = tieOffersRanked := by
  show (List.range' 7 6).foldl
      (fun ys i => GoSort.insertInner routeLT 6 i i ys) tieOffersMid
    = tieOffersRanked
  rw [show List.range' 7 6 = [7, 8, 9, 10, 11, 12] from rfl]
  simp only [List.foldl_cons, List.foldl_nil]
  rw [tie_insert7, tie_insert8, tie_insert9, tie_insert10, tie_insert11,
    tie_insert12]

/-- One `pdqsortStep` on `tieOffers`, given the two follow-up calls'
results: partition, then the two sides. -/
theorem tie_step
    (recur : Array Route → Nat → Nat → Nat → Bool → Bool → Array Route)
    (h1 : recur tieOffersMid 0 5 4 true true = tieOffersMid)
    (h2 : recur tieOffersMid 6 13 4 true true = tieOffersRanked) :
    GoSort.pdqsortStep routeLT recur tieOffers.toArray 0 13 4 true true
      = tieOffersRanked := by
  rw [GoSort.pdqsortStep]
  rw [if_neg (by decide : ¬ ((13 : Nat) - 0 ≤ 12))]
  rw [if_neg (by decide : ¬ ((4 : Nat) = 0))]
  rw [if_neg (by decide : ¬ ¬ (true = true))]
  rw [GoSort.stageBreak, tie_choosePivot, GoSort.stagePivot]
  rw [if_neg (by decide :
    ¬ (GoSort.Hint.increasing = GoSort.Hint.decreasing))]
  rw [GoSort.stageHint]
  rw [if_pos (by exact ⟨rfl, rfl, rfl⟩ :
    (true = true ∧ true = true ∧
      GoSort.Hint.increasing = GoSort.Hint.increasing))]
  rw [tie_partialInsertion, GoSort.stagePartial]
  rw [if_neg (by decide : ¬ (false = true))]
  rw [if_neg (by decide :
    ¬ ((0 : Nat) < 0 ∧
      ¬ GoSort.lessAt routeLT tieOffers.toArray (0 - 1) 6))]
  rw [tie_partition, GoSort.stagePartition]
  rw [if_pos (by decide : (5 : Nat) - 0 < 13 - 5)]
  rw [h1]
  show recur tieOffersMid 6 13 4 true true = tieOffersRanked
  exact h2

/-- The recursive pdqsort call on the left side reduces to the (trivial)
insertion sort. -/
theorem tie_loopLeft (f : Nat) :
    GoSort.pdqsortLoop routeLT (f + 1) tieOffersMid 0 5 4 true true
      = tieOffersMid := by
  rw [GoSort.pdqsortLoop, GoSort.pdqsortStep]
  rw [if_pos (by decide : (5 : Nat) - 0 ≤ 12)]
  exact tie_insertLeft

/-- The continued pdqsort iteration on the right side reduces to the
insertion sort of `[6, 13)`. -/
theorem tie_loopRight (f : Nat) :
    GoSort.pdqsortLoop routeLT (f + 1) tieOffersMid 6 13 4 true true
      = tieOffersRanked := by
  rw [GoSort.pdqsortLoop, GoSort.pdqsortStep]
  rw [if_pos (by decide : (13 : Nat) - 6 ≤ 12)]
  exact tie_insertRight

/-- The full pdqsort run on `tieOffers` (any sufficient fuel). -/
theorem tie_loop (f : Nat) :
    GoSort.pdqsortLoop routeLT (f + 1 + 1) tieOffers.toArray 0 13 4
        true true = tieOffersRanked := by
  rw [GoSort.pdqsortLoop]
  exact tie_step (GoSort.pdqsortLoop routeLT (f + 1)) (tie_loopLeft f)
    (tie_loopRight f)

/-- `sort.Slice` on `tieOffers` evaluates to `tieOffersRanked`. -/
theorem rankRoutesImpl_tieOffers :
    rankRoutesImpl tieOffers = tieOffersRanked.toList := by
  rw [rankRoutesImpl, GoSort.sortSlice]
  rw [show (tieOffers.toArray : Array Route).size = 13 from rfl]
  rw [show GoSort.bitsLen 13 = 4 from rfl]
  rw [show (2 * 13 + 128 : Nat) = 152 + 1 + 1 from rfl]
  rw [tie_loop 152]

/-- C7 counterexample: the ranking sort the handlers run (`sort.Slice`,
pdqsort) is not stable on price ties. In `tieOffers`, offer "o1" (input
position 1) precedes offer "o5" (input position 5) and both have price
amount 1, yet the ranked output places "o5" at position 0 before "o1" at
position 1. -/
theorem rankRoutesImpl_reorders_price_ties :
    tieOffers.get? 1 = some (mkOffer "o1" 1) ∧
    tieOffers.get? 5 = some (mkOffer "o5" 1) ∧
    (mkOffer "o1" 1).price.amount = (mkOffer "o5" 1).price.amount ∧
    (rankRoutesImpl tieOffers).get? 0 = some (mkOffer "o5" 1) ∧
    (rankRoutesImpl tieOffers).get? 1 = some (mkOffer "o1" 1) := by
  refine ⟨rfl, rfl, rfl, ?_, ?_⟩ <;> rw [rankRoutesImpl_tieOffers] <;> rfl

/-- C7 as amended: ranking still orders offers non-decreasingly by price
amount and permutes the input (shown both for the sort contract and for
the concrete pdqsort run on `tieOffers`), but equal-price offers are not
guaranteed to keep their relative order — Go's `sort.Slice` is unstable,
as the counterexample shows. -/
theorem rankRoutes_nondecreasing_ties_unspecified :
    (∀ l : List Route, (rankRoutes l).Pairwise
      (fun a b => a.price.amount ≤ b.price.amount)) ∧
    (rankRoutesImpl tieOffers).Perm tieOffers ∧
    (rankRoutesImpl tieOffers).Pairwise
      (fun a b => a.price.amount ≤ b.price.amount) := by
  refine ⟨?_, ?_, ?_⟩
  · intro l
    have h := @List.sorted_mergeSort Route routeLE routeLE_trans
      routeLE_total l
    exact h.imp fun hab => by
      simpa only [routeLE, decide_eq_true_eq] using hab
  · rw [rankRoutesImpl_tieOffers]; decide
  · rw [rankRoutesImpl_tieOffers]
    decide

/-! ## C8 -/

/-- When every provider succeeds, every value delivered on `errorsChan` is
the `nil` sent on the success path. -/
theorem errorsChan_of_success (outs : List SearchResult) (ev : Schedule)
    (hall : ∀ res ∈ outs, res.2 = none) :
    ∀ x ∈ errorsChan outs ev, x = none := by
  intro x hx
  rw [errorsChan, List.mem_filterMap] at hx
  obtain ⟨e, _, hfe⟩ := hx
  cases hget : outs.get? e.1 with
  | none => rw [hget] at hfe; exact absurd hfe (by simp)
  | some res =>
    rw [hget] at hfe
    have hres := hall res (List.get?_mem hget)
    simp only [Option.some_bind] at hfe
    split at hfe
    · rw [hres] at hfe
      simpa using hfe.symm
    · exact absurd hfe (by simp)

/-- When every delivered error is `nil`, the collect loop appends every
non-nil routes slice in delivery order. -/
theorem collect_of_errors_none (rc : List (Option (List Route))) :
    ∀ (ec : List (Option String)) (acc : List Route),
      rc.length = ec.length → (∀ x ∈ ec, x = none) →
        (rc.zip ec).foldl collectStep acc = acc ++ rc.reduceOption.flatten := by
  induction rc with
  | nil => intro ec acc _ _; simp
  | cons r rc ih =>
    intro ec acc hlen hall
    cases ec with
    | nil => exact absurd hlen (by simp)
    | cons e ec =>
      have he : e = none := hall e (by simp)
      subst he
      have hrest := ih ec (collectStep acc (r, none))
        (by simpa using hlen) (fun x hx => hall x (by simp [hx]))
      cases r with
      | some rs =>
        have hstep : collectStep acc (some rs, none) = acc ++ rs := by
          simp [collectStep]
        rw [hstep] at hrest
        rw [List.zip_cons_cons, List.foldl_cons, hstep, hrest]
        simp [List.reduceOption, List.filterMap_cons, List.append_assoc]
      | none =>
        have hstep : collectStep acc (none, none) = acc := by
          simp [collectStep]
        rw [hstep] at hrest
        rw [List.zip_cons_cons, List.foldl_cons, hstep, hrest]
        simp [List.reduceOption, List.filterMap_cons]

/-- Every offer the RedBus mock emits is stamped with platform "RedBus". -/
theorem redBus_platform (req : SearchRequest) (bp : Rat) (n : Nat)
    (bt : Nat → Fin 3) (st : Nat → Nat) :
    ∀ r ∈ (redBusSearchRoutes req bp n bt st).1,
      r.price.platform = "RedBus" := by
  intro r hr
  simp only [redBusSearchRoutes, List.mem_map] at hr
  obtain ⟨i, _, rfl⟩ := hr
  rfl

/-- Every offer the MakeMyTrip mock emits is stamped "MakeMyTrip". -/
theorem makeMyTrip_platform (req : SearchRequest) (bp : Rat) (n : Nat)
    (bt : Nat → Fin 3) (st : Nat → Nat) :
    ∀ r ∈ (makeMyTripSearchRoutes req bp n bt st).1,
      r.price.platform = "MakeMyTrip" := by
  intro r hr
  simp only [makeMyTripSearchRoutes, List.mem_map] at hr
  obtain ⟨i, _, rfl⟩ := hr
  rfl

/-- Every offer the Goibibo mock emits is stamped "Goibibo". -/
theorem goibibo_platform (req : SearchRequest) (bp : Rat) (n : Nat)
    (bt : Nat → Fin 3) (st : Nat → Nat) :
    ∀ r ∈ (goibiboSearchRoutes req bp n bt st).1,
      r.price.platform = "Goibibo" := by
  intro r hr
  simp only [goibiboSearchRoutes, List.mem_map] at hr
  obtain ⟨i, _, rfl⟩ := hr
  rfl

/-- The aggregated offers of a three-mock round are a permutation of the
three providers' lists concatenated, for every valid schedule. -/
theorem mock_round_perm (req : SearchRequest) (bp1 bp2 bp3 : Rat)
    (n1 n2 n3 : Nat) (bt1 bt2 bt3 : Nat → Fin 3) (st1 st2 st3 : Nat → Nat)
    (ev : Schedule)
    (hv : validSchedule 3 ev) :
    (searchAllPlatforms
        (mockOuts req bp1 bp2 bp3 n1 n2 n3 bt1 bt2 bt3 st1 st2 st3) ev).1.Perm
      ((redBusSearchRoutes req bp1 n1 bt1 st1).1 ++
        (makeMyTripSearchRoutes req bp2 n2 bt2 st2).1 ++
        (goibiboSearchRoutes req bp3 n3 bt3 st3).1) := by
  have hperm := hv.1
  have hrc : (routesChan
      (mockOuts req bp1 bp2 bp3 n1 n2 n3 bt1 bt2 bt3 st1 st2 st3) ev).Perm
      (routesChan (mockOuts req bp1 bp2 bp3 n1 n2 n3 bt1 bt2 bt3 st1 st2 st3)
        (allEvents 3)) :=
    List.Perm.filterMap _ hperm
  have hec : (errorsChan
      (mockOuts req bp1 bp2 bp3 n1 n2 n3 bt1 bt2 bt3 st1 st2 st3) ev).Perm
      (errorsChan (mockOuts req bp1 bp2 bp3 n1 n2 n3 bt1 bt2 bt3 st1 st2 st3)
        (allEvents 3)) :=
    List.Perm.filterMap _ hperm
  have hrc_canon : routesChan
      (mockOuts req bp1 bp2 bp3 n1 n2 n3 bt1 bt2 bt3 st1 st2 st3)
      (allEvents 3)
      = [some (redBusSearchRoutes req bp1 n1 bt1 st1).1,
         some (makeMyTripSearchRoutes req bp2 n2 bt2 st2).1,
         some (goibiboSearchRoutes req bp3 n3 bt3 st3).1] := rfl
  have hec_canon : errorsChan
      (mockOuts req bp1 bp2 bp3 n1 n2 n3 bt1 bt2 bt3 st1 st2 st3)
      (allEvents 3) = [none, none, none] := rfl
  have hall : ∀ res ∈ mockOuts req bp1 bp2 bp3 n1 n2 n3 bt1 bt2 bt3
      st1 st2 st3, res.2 = none := by
    intro res hres
    simp only [mockOuts, List.mem_cons, List.not_mem_nil, or_false] at hres
    rcases hres with rfl | rfl | rfl <;> rfl
  have hecn := errorsChan_of_success _ ev hall
  have hlen : (routesChan
        (mockOuts req bp1 bp2 bp3 n1 n2 n3 bt1 bt2 bt3 st1 st2 st3)
        ev).length
      = (errorsChan
          (mockOuts req bp1 bp2 bp3 n1 n2 n3 bt1 bt2 bt3 st1 st2 st3)
          ev).length := by
    rw [hrc.length_eq, hec.length_eq, hrc_canon, hec_canon]
    simp
  show (collectRoutes _ _).Perm _
  rw [collectRoutes, collect_of_errors_none _ _ [] hlen hecn,
    List.nil_append]
  have hro := List.Perm.filterMap id hrc
  rw [hrc_canon] at hro
  have hro2 : (List.filterMap id (routesChan
      (mockOuts req bp1 bp2 bp3 n1 n2 n3 bt1 bt2 bt3 st1 st2 st3)
      ev)).Perm
      [(redBusSearchRoutes req bp1 n1 bt1 st1).1,
       (makeMyTripSearchRoutes req bp2 n2 bt2 st2).1,
       (goibiboSearchRoutes req bp3 n3 bt3 st3).1] := by
    simpa using hro
  have hflat := hro2.flatten
  simpa using hflat

/-- C8 as amended: for the scenario criteria against the three registered
mock providers with any valid schedule and any randomness draws, RedBus and
Goibibo emit 2-4 offers but MakeMyTrip emits 1-4 (`rand.Intn(4)+1`), so
the aggregated output contains between 5 and 12 offers, and every offer's
price platform is one of the three provider names. -/
theorem aggregate_scenario (req : SearchRequest) (bp1 bp2 bp3 : Rat)
    (n1 n2 n3 : Nat) (bt1 bt2 bt3 : Nat → Fin 3) (st1 st2 st3 : Nat → Nat)
    (h1 : n1 < 3) (h2 : n2 < 4) (h3 : n3 < 3) (ev : Schedule)
    (hv : validSchedule 3 ev) :
    5 ≤ (searchAllPlatforms
        (mockOuts req bp1 bp2 bp3 n1 n2 n3 bt1 bt2 bt3 st1 st2 st3)
        ev).1.length ∧
    (searchAllPlatforms
        (mockOuts req bp1 bp2 bp3 n1 n2 n3 bt1 bt2 bt3 st1 st2 st3)
        ev).1.length ≤ 12 ∧
    ∀ r ∈ (searchAllPlatforms
        (mockOuts req bp1 bp2 bp3 n1 n2 n3 bt1 bt2 bt3 st1 st2 st3) ev).1,
      r.price.platform ∈ (["RedBus", "MakeMyTrip", "Goibibo"] :
        List String) := by
  have hperm := mock_round_perm req bp1 bp2 bp3 n1 n2 n3 bt1 bt2 bt3
    st1 st2 st3 ev hv
  have hlen1 : (redBusSearchRoutes req bp1 n1 bt1 st1).1.length = n1 + 2 := by
    simp [redBusSearchRoutes]
  have hlen2 : (makeMyTripSearchRoutes req bp2 n2 bt2 st2).1.length
      = n2 + 1 := by
    simp [makeMyTripSearchRoutes]
  have hlen3 : (goibiboSearchRoutes req bp3 n3 bt3 st3).1.length
      = n3 + 2 := by
    simp [goibiboSearchRoutes]
  have hlen := hperm.length_eq
  simp only [List.length_append, hlen1, hlen2, hlen3] at hlen
  refine ⟨by omega, by omega, ?_⟩
  intro r hr
  have hr' := hperm.mem_iff.mp hr
  simp only [List.mem_append] at hr'
  rcases hr' with (hr1 | hr2) | hr3
  · simp [redBus_platform req bp1 n1 bt1 st1 r hr1]
  · simp [makeMyTrip_platform req bp2 n2 bt2 st2 r hr2]
  · simp [goibibo_platform req bp3 n3 bt3 st3 r hr3]

/-- C8 counterexample: with the minimal draws, MakeMyTrip emits a single
offer (not 2-4), and the aggregated output of the scenario round has 5
offers, below the claimed lower bound of 6. -/
theorem mock_counts_counterexample :
    (makeMyTripSearchRoutes reqMumbaiPune 450 0 constBT constSeat).1.length
        = 1 ∧
    ¬ (2 ≤ (makeMyTripSearchRoutes reqMumbaiPune 450 0 constBT
        constSeat).1.length) ∧
    validSchedule 3 (allEvents 3) ∧
    (searchAllPlatforms outsMinDraws (allEvents 3)).1.length = 5 ∧
    ¬ (6 ≤ (searchAllPlatforms outsMinDraws (allEvents 3)).1.length) := by
  exact ⟨rfl, by decide, by decide, rfl, by decide⟩

/-- Witness for C8's amended claim at the minimal draws under the
canonical schedule. -/
theorem aggregate_scenario_witness :
    5 ≤ (searchAllPlatforms outsMinDraws (allEvents 3)).1.length ∧
      (searchAllPlatforms outsMinDraws (allEvents 3)).1.length ≤ 12 := by
  have h := aggregate_scenario reqMumbaiPune 500 450 600 0 0 0
    constBT constBT constBT constSeat constSeat constSeat
    (by decide) (by decide) (by decide) (allEvents 3) (by decide)
  exact ⟨h.1, h.2.1⟩

end BusScanner
